import Mathlib

/-!
Shallow embedding of the aws-moviesapi Lambda handlers.

The combined router lives in the unnamed source file holding `handleRequest`,
`findAllMovies`, `findOneMovie`, `insertMovie`, `updateMovie`, `deleteMovie`,
`jsonErrorResponse`, `jsonSuccessResponse` and `paginateMovies`.  The
repository also ships standalone single-operation Lambdas (`delete`, `insert`,
`update`, `findOne`); those are embedded in the namespaces `DeleteLambda`,
`InsertLambda` and `UpdateLambda` below.

Modelling conventions:
 * The DynamoDB collaborator is an oracle (`DynamoDB`) fixing the outcome of
   each kind of call; a handler returns the list of store calls it performed
   together with `some` response, or `none` when the Go code panics
   (out-of-range slice, nil-pointer dereference).
 * Go `map[string]string` lookup is an association-list lookup defaulting to
   the zero value `""`.
 * `encoding/json` marshalling of the three fixed struct shapes is a total
   function (it cannot fail on these types, so the dead `err != nil` branches
   after `json.Marshal` are not modelled); unmarshalling into `Movie` is a
   small JSON parser with Go semantics for missing fields (zero value),
   `null` (no-op) and wrong-typed or non-object payloads (error).  The error
   message strings of the parser are the model's own wording.
 * `int(math.Ceil(float64(n) / float64(p)))` is exact integer ceiling
   division for every collection size representable here.
-/

structure Movie where
  id : String
  name : String
deriving DecidableEq, Repr

structure PaginatedMovie where
  movie : List Movie
  actualPage : Int
  totalPages : Int
deriving DecidableEq, Repr

structure FeedbackResponse where
  success : Bool
  message : String
deriving DecidableEq, Repr

structure APIGatewayProxyRequest where
  httpMethod : String
  pathParameters : List (String × String)
  queryStringParameters : List (String × String)
  body : String
deriving DecidableEq, Repr

structure APIGatewayProxyResponse where
  statusCode : Int
  headers : List (String × String)
  body : String
deriving DecidableEq, Repr

/-- One call made to the DynamoDB storage collaborator. -/
inductive StoreCall where
  | scan
  | getItem (id : String)
  | putItem (m : Movie)
  | updateItem (id : String) (name : String)
  | deleteItem (id : String)
deriving DecidableEq, Repr

/-- Oracle fixing the outcome of every possible DynamoDB call: `scan` yields
either an error or the table content as movies (each scanned item carries the
`ID` and `Name` string attributes), `getItem` yields an error, no item
(`res.Item` empty) or the stored item, and the three mutations yield success
or an error carrying the collaborator-internal error text. -/
structure DynamoDB where
  scanResult : Except String (List Movie)
  getItemResult : String → Except String (Option Movie)
  putItemResult : Movie → Except String Unit
  updateItemResult : String → String → Except String Unit
  deleteItemResult : String → Except String Unit

/-- A handler outcome: the store calls performed, and `some` response, or
`none` when the Go code panics instead of returning. -/
abbrev HandlerResult := List StoreCall × Option APIGatewayProxyResponse

/-- Go `map[string]string` read: a missing key yields the zero value `""`. -/
def mapGet (m : List (String × String)) (k : String) : String :=
  ((m.find? (fun p => p.1 == k)).map Prod.snd).getD ""

/-- The headers map built on every response of the combined router:
`map[string]string\x7b"Content-Type": "application/json"\x7d`. -/
def jsonHeaders : List (String × String) := [("Content-Type", "application/json")]

/-- Escaping of one character inside a JSON string literal (the escapes
relevant to the strings that occur here). -/
def jsonEscapeChar (c : Char) : String :=
  if c = '"' then "\\\""
  else if c = '\\' then "\\\\"
  else if c = '\n' then "\\n"
  else if c = '\t' then "\\t"
  else if c = '\r' then "\\r"
  else String.singleton c

def jsonEscape (s : String) : String :=
  String.join (s.toList.map jsonEscapeChar)

def jsonStrLit (s : String) : String :=
  "\"" ++ jsonEscape s ++ "\""

/-- `json.Marshal` of `FeedbackResponse\x7bSuccess, Message\x7d`. -/
def feedbackJson (success : Bool) (message : String) : String :=
  "\x7b\"success\":" ++ (if success then "true" else "false")
    ++ ",\"message\":" ++ jsonStrLit message ++ "\x7d"

/-- Source `jsonErrorResponse`: marshals a failure envelope. -/
def jsonErrorResponse (errMessage : String) : String :=
  feedbackJson false errMessage

/-- Source `jsonSuccessResponse`: marshals a success envelope. -/
def jsonSuccessResponse (successMessage : String) : String :=
  feedbackJson true successMessage

/-- `json.Marshal` of a `Movie`. -/
def movieJson (m : Movie) : String :=
  "\x7b\"id\":" ++ jsonStrLit m.id ++ ",\"name\":" ++ jsonStrLit m.name ++ "\x7d"

def moviesJson (ms : List Movie) : String :=
  "[" ++ String.intercalate (",") (ms.map movieJson) ++ "]"

/-- `json.Marshal` of a `PaginatedMovie`. -/
def paginatedMovieJson (p : PaginatedMovie) : String :=
  "\x7b\"data\":" ++ moviesJson p.movie
    ++ ",\"actual_page\":" ++ toString p.actualPage
    ++ ",\"total_pages\":" ++ toString p.totalPages ++ "\x7d"

/-- Accumulate decimal digits; any non-digit character aborts. -/
def decDigits? (cs : List Char) : Option Nat :=
  cs.foldl
    (fun acc c =>
      match acc with
      | none => none
      | some n => if c.isDigit then some (n * 10 + (c.toNat - 48)) else none)
    (some 0)

/-- Go `strconv.Atoi`: an optional single sign followed by at least one
decimal digit, rejecting anything else and values outside the 64-bit `int`
range (Go returns a non-nil error in all those cases). -/
def goAtoi (s : String) : Option Int :=
  match s.toList with
  | [] => none
  | c :: rest =>
    let signed : Bool × List Char :=
      if c = '-' then (true, rest)
      else if c = '+' then (false, rest)
      else (false, c :: rest)
    match decDigits? signed.2 with
    | none => none
    | some n =>
      if signed.2 = [] then none
      else
        let v : Int := if signed.1 then -(n : Int) else (n : Int)
        if v < -(2 ^ 63) ∨ (2 ^ 63 - 1 : Int) < v then none else some v

/-- `int(math.Ceil(float64 n / float64 p))` for the positive page size used
at the sole call site (the division is exact at these magnitudes). -/
def goCeilDiv (n : Nat) (p : Int) : Int :=
  if p ≤ 0 then 0 else (((n + (p.toNat - 1)) / p.toNat : Nat) : Int)

/-- Go slice expression `xs[lo:hi]`: in bounds iff `0 ≤ lo ≤ hi ≤ len`,
otherwise a run-time panic (`none`). -/
def goSlice (xs : List Movie) (lo hi : Int) : Option (List Movie) :=
  if 0 ≤ lo ∧ lo ≤ hi ∧ hi ≤ (xs.length : Int) then
    some ((xs.drop lo.toNat).take (hi - lo).toNat)
  else none

/-- Source `paginateMovies`: decrement the page number, compute raw bounds,
clamp each bound above by the length (never below zero), slice.  `none`
models the Go slice panic reachable when `pageNum ≤ 0`. -/
def paginateMovies (movies : List Movie) (pageNum pageSize : Int) :
    Option (List Movie × Int) :=
  let pageNum1 := pageNum - 1
  let sliceLength : Int := (movies.length : Int)
  let totalPages : Int := goCeilDiv movies.length pageSize
  let start0 := pageNum1 * pageSize
  let stop0 := start0 + pageSize
  let start1 := if start0 > sliceLength then sliceLength else start0
  let stop1 := if stop0 > sliceLength then sliceLength else stop0
  (goSlice movies start1 stop1).map (fun s => (s, totalPages))

/-- Lexicographic `<` on character lists, by code point. -/
def charListLt : List Char → List Char → Bool
  | [], [] => false
  | [], _ :: _ => true
  | _ :: _, [] => false
  | a :: as, b :: bs =>
    if a.toNat < b.toNat then true
    else if a.toNat = b.toNat then charListLt as bs else false

/-- Go string comparison `a < b` (lexicographic). -/
def strLt (a b : String) : Bool := charListLt a.toList b.toList

/-- Insertion step of the id sort: insert before the first element whose id
is not smaller. -/
def insertById (m : Movie) : List Movie → List Movie
  | [] => [m]
  | x :: xs => if strLt x.id m.id then x :: insertById m xs else m :: x :: xs

/-- `sort.Slice(movies, func(i, j) \x7b return movies[i].ID < movies[j].ID \x7d)`:
sorts ascending by id (lexicographic). -/
def sortMoviesById (l : List Movie) : List Movie :=
  l.foldr insertById []

/-- The effective page parameter of `findAllMovies`: the `page` query string
value, defaulting to `"1"` when absent or empty. -/
def pageParamOf (req : APIGatewayProxyRequest) : String :=
  let page := mapGet req.queryStringParameters ("page")
  if page = "" then "1" else page

/-- JSON value tree (numbers kept as their raw token). -/
inductive Json where
  | null
  | bool (b : Bool)
  | num (raw : String)
  | str (s : String)
  | arr (elems : List Json)
  | obj (fields : List (String × Json))

def lbrace : Char := Char.ofNat 123

def rbrace : Char := Char.ofNat 125

def isJsonWs (c : Char) : Bool :=
  c = ' ' || c = '\t' || c = '\n' || c = '\r'

def skipWs : List Char → List Char
  | [] => []
  | c :: cs => if isJsonWs c then skipWs cs else c :: cs

def hexVal? (c : Char) : Option Nat :=
  if '0' ≤ c ∧ c ≤ '9' then some (c.toNat - 48)
  else if 'a' ≤ c ∧ c ≤ 'f' then some (c.toNat - 87)
  else if 'A' ≤ c ∧ c ≤ 'F' then some (c.toNat - 55)
  else none

/-- Parse the body of a JSON string literal (the opening quote already
consumed), handling the standard escapes. -/
def parseStrBody (fuel : Nat) (cs : List Char) (acc : List Char) :
    Except String (String × List Char) :=
  match fuel with
  | 0 => Except.error ("string literal not terminated")
  | Nat.succ f =>
    match cs with
    | [] => Except.error ("string literal not terminated")
    | c :: rest =>
      if c = '"' then Except.ok (String.mk acc.reverse, rest)
      else if c = '\\' then
        match rest with
        | [] => Except.error ("string literal not terminated")
        | e :: rest2 =>
          if e = '"' then parseStrBody f rest2 ('"' :: acc)
          else if e = '\\' then parseStrBody f rest2 ('\\' :: acc)
          else if e = '/' then parseStrBody f rest2 ('/' :: acc)
          else if e = 'n' then parseStrBody f rest2 ('\n' :: acc)
          else if e = 't' then parseStrBody f rest2 ('\t' :: acc)
          else if e = 'r' then parseStrBody f rest2 ('\r' :: acc)
          else if e = 'b' then parseStrBody f rest2 (Char.ofNat 8 :: acc)
          else if e = 'f' then parseStrBody f rest2 (Char.ofNat 12 :: acc)
          else if e = 'u' then
            match rest2 with
            | h1 :: h2 :: h3 :: h4 :: rest3 =>
              match hexVal? h1, hexVal? h2, hexVal? h3, hexVal? h4 with
              | some a, some b, some c2, some d =>
                parseStrBody f rest3 (Char.ofNat (((a * 16 + b) * 16 + c2) * 16 + d) :: acc)
              | _, _, _, _ => Except.error ("invalid unicode escape")
            | _ => Except.error ("invalid unicode escape")
          else Except.error ("invalid escape character")
      else parseStrBody f rest (c :: acc)

def isNumChar (c : Char) : Bool :=
  c.isDigit || c = '-' || c = '+' || c = '.' || c = 'e' || c = 'E'

def spanNum : List Char → List Char × List Char
  | [] => ([], [])
  | c :: cs =>
    if isNumChar c then
      let r := spanNum cs
      (c :: r.1, r.2)
    else ([], c :: cs)

mutual

/-- Recursive-descent parser for one JSON value; fuel bounds nesting depth. -/
def parseJsonValue (fuel : Nat) (cs : List Char) : Except String (Json × List Char) :=
  match fuel with
  | 0 => Except.error ("value nesting too deep")
  | Nat.succ f =>
    match skipWs cs with
    | [] => Except.error ("unexpected end of JSON input")
    | c :: rest =>
      if c = '"' then
        match parseStrBody (rest.length + 1) rest [] with
        | Except.error e => Except.error e
        | Except.ok (s, r) => Except.ok (Json.str s, r)
      else if c = lbrace then parseJsonFields f (skipWs rest) [] true
      else if c = '[' then parseJsonElems f (skipWs rest) [] true
      else if c = 't' then
        match rest with
        | 'r' :: 'u' :: 'e' :: r => Except.ok (Json.bool true, r)
        | _ => Except.error ("invalid literal")
      else if c = 'f' then
        match rest with
        | 'a' :: 'l' :: 's' :: 'e' :: r => Except.ok (Json.bool false, r)
        | _ => Except.error ("invalid literal")
      else if c = 'n' then
        match rest with
        | 'u' :: 'l' :: 'l' :: r => Except.ok (Json.null, r)
        | _ => Except.error ("invalid literal")
      else if c.isDigit || c = '-' then
        let r := spanNum (c :: rest)
        Except.ok (Json.num (String.mk r.1), r.2)
      else Except.error ("invalid character in JSON input")

/-- Parse object members after the opening brace (`first` marks that no
member has been consumed yet, so a closing brace is accepted). -/
def parseJsonFields (fuel : Nat) (cs : List Char) (acc : List (String × Json))
    (first : Bool) : Except String (Json × List Char) :=
  match fuel with
  | 0 => Except.error ("value nesting too deep")
  | Nat.succ f =>
    match skipWs cs with
    | [] => Except.error ("object not terminated")
    | c :: rest =>
      if c = rbrace ∧ first then Except.ok (Json.obj acc.reverse, rest)
      else
        if c = '"' then
          match parseStrBody (rest.length + 1) rest [] with
          | Except.error e => Except.error e
          | Except.ok (key, r1) =>
            match skipWs r1 with
            | ':' :: r2 =>
              match parseJsonValue f r2 with
              | Except.error e => Except.error e
              | Except.ok (v, r3) =>
                match skipWs r3 with
                | ',' :: r4 => parseJsonFields f r4 ((key, v) :: acc) false
                | c2 :: r4 =>
                  if c2 = rbrace then Except.ok (Json.obj (((key, v) :: acc)).reverse, r4)
                  else Except.error ("expected comma or closing brace in object")
                | [] => Except.error ("object not terminated")
            | _ => Except.error ("expected colon after object key")
        else Except.error ("expected string key in object")

/-- Parse array elements after the opening bracket. -/
def parseJsonElems (fuel : Nat) (cs : List Char) (acc : List Json)
    (first : Bool) : Except String (Json × List Char) :=
  match fuel with
  | 0 => Except.error ("value nesting too deep")
  | Nat.succ f =>
    match skipWs cs with
    | [] => Except.error ("array not terminated")
    | c :: rest =>
      if c = ']' ∧ first then Except.ok (Json.arr acc.reverse, rest)
      else
        match parseJsonValue f (c :: rest) with
        | Except.error e => Except.error e
        | Except.ok (v, r1) =>
          match skipWs r1 with
          | ',' :: r2 => parseJsonElems f r2 (v :: acc) false
          | ']' :: r2 => Except.ok (Json.arr ((v :: acc)).reverse, r2)
          | _ => Except.error ("expected comma or closing bracket in array")

end

/-- ASCII lower-casing of one character. -/
def charToLower (c : Char) : Char :=
  if 'A' ≤ c ∧ c ≤ 'Z' then Char.ofNat (c.toNat + 32) else c

/-- ASCII case-insensitive string equality, as used by `encoding/json` for
struct field matching. -/
def lowerEq (a b : String) : Bool :=
  (a.toList.map charToLower) == (b.toList.map charToLower)

/-- Read the string struct field bound to `key` the way `encoding/json`
does: keys are matched case-insensitively, the last matching member wins,
a missing key or a `null` value leaves the zero value `""`, and any
non-string value is an unmarshalling error. -/
def strField (fields : List (String × Json)) (key : String) : Except String String :=
  match (fields.filter (fun p => lowerEq p.1 key)).getLast? with
  | none => Except.ok ("")
  | some (_, Json.str s) => Except.ok s
  | some (_, Json.null) => Except.ok ("")
  | some _ => Except.error ("cannot unmarshal value into string field")

/-- Go `json.Unmarshal([]byte(req.Body), &movie)`: parse one JSON value,
reject trailing non-whitespace, accept an object (field-wise) or a bare
`null` (leaves the zero `Movie`), reject anything else. -/
def unmarshalMovie (s : String) : Except String Movie :=
  match parseJsonValue (s.toList.length + 1) s.toList with
  | Except.error e => Except.error e
  | Except.ok (v, rest) =>
    if skipWs rest ≠ [] then Except.error ("unexpected trailing data")
    else
      match v with
      | Json.obj fields =>
        match strField fields ("id"), strField fields ("name") with
        | Except.ok i, Except.ok n => Except.ok ⟨i, n⟩
        | Except.error e, _ => Except.error e
        | _, Except.error e => Except.error e
      | Json.null => Except.ok ⟨"", ""⟩
      | _ => Except.error ("cannot unmarshal non-object into Movie")

/-- Source `findAllMovies`: scan the table, sort by id, read and parse the
`page` query parameter, paginate with page size 3, reject a page beyond the
total, otherwise serialize the page. -/
def findAllMovies (db : DynamoDB) (req : APIGatewayProxyRequest) : HandlerResult :=
  match db.scanResult with
  | Except.error _ =>
    ([StoreCall.scan],
      some ⟨500, jsonHeaders, jsonErrorResponse ("Error while scanning DynamoDB")⟩)
  | Except.ok items =>
    let movies := sortMoviesById items
    match goAtoi (pageParamOf req) with
    | none =>
      ([StoreCall.scan],
        some ⟨500, jsonHeaders, jsonErrorResponse ("Only numbers accepted in page query string")⟩)
    | some pageNum =>
      match paginateMovies movies pageNum 3 with
      | none => ([StoreCall.scan], none)
      | some (paginated, totalPages) =>
        if pageNum > totalPages then
          ([StoreCall.scan],
            some ⟨400, jsonHeaders, jsonErrorResponse ("The requested page exceeds the total of pages")⟩)
        else
          ([StoreCall.scan],
            some ⟨200, jsonHeaders, paginatedMovieJson ⟨paginated, pageNum, totalPages⟩⟩)

/-- Source `findOneMovie` of the combined router: get the item by the `id`
path parameter; a failed call yields 500, an empty `res.Item` yields 404,
otherwise 200 with the movie serialized. -/
def findOneMovie (db : DynamoDB) (req : APIGatewayProxyRequest) : HandlerResult :=
  let id := mapGet req.pathParameters ("id")
  match db.getItemResult id with
  | Except.error _ =>
    ([StoreCall.getItem id],
      some ⟨500, jsonHeaders, jsonErrorResponse ("Error while getting item DynamoDB")⟩)
  | Except.ok none =>
    ([StoreCall.getItem id],
      some ⟨404, jsonHeaders, jsonErrorResponse ("Movie not found with the ID provided")⟩)
  | Except.ok (some movie) =>
    ([StoreCall.getItem id], some ⟨200, jsonHeaders, movieJson movie⟩)

/-- Source `insertMovie`: unmarshal the body (400 without any store call on
failure), then put the item. -/
def insertMovie (db : DynamoDB) (req : APIGatewayProxyRequest) : HandlerResult :=
  match unmarshalMovie req.body with
  | Except.error _ =>
    ([], some ⟨400, jsonHeaders, jsonErrorResponse ("Invalid payload")⟩)
  | Except.ok movie =>
    match db.putItemResult movie with
    | Except.error _ =>
      ([StoreCall.putItem movie],
        some ⟨500, jsonHeaders, jsonErrorResponse ("Error inserting movie into DynamoDB")⟩)
    | Except.ok _ =>
      ([StoreCall.putItem movie],
        some ⟨200, jsonHeaders, jsonSuccessResponse ("Movie inserted successfully")⟩)

/-- Source `updateMovie`: unmarshal the body, then update the `Name`
attribute of the item keyed by the id. -/
def updateMovie (db : DynamoDB) (req : APIGatewayProxyRequest) : HandlerResult :=
  match unmarshalMovie req.body with
  | Except.error _ =>
    ([], some ⟨400, jsonHeaders, jsonErrorResponse ("Invalid payload")⟩)
  | Except.ok movie =>
    match db.updateItemResult movie.id movie.name with
    | Except.error _ =>
      ([StoreCall.updateItem movie.id movie.name],
        some ⟨500, jsonHeaders, jsonErrorResponse ("Error updating movie from DynamoDB")⟩)
    | Except.ok _ =>
      ([StoreCall.updateItem movie.id movie.name],
        some ⟨200, jsonHeaders, jsonSuccessResponse ("Movie updated successfully")⟩)

/-- Source `deleteMovie`: unmarshal the body, then delete the item keyed by
the id. -/
def deleteMovie (db : DynamoDB) (req : APIGatewayProxyRequest) : HandlerResult :=
  match unmarshalMovie req.body with
  | Except.error _ =>
    ([], some ⟨400, jsonHeaders, jsonErrorResponse ("Invalid payload")⟩)
  | Except.ok movie =>
    match db.deleteItemResult movie.id with
    | Except.error _ =>
      ([StoreCall.deleteItem movie.id],
        some ⟨500, jsonHeaders, jsonErrorResponse ("Error deleting movie into DynamoDB")⟩)
    | Except.ok _ =>
      ([StoreCall.deleteItem movie.id],
        some ⟨200, jsonHeaders, jsonSuccessResponse ("Movie deleted successfully")⟩)

/-- Source `handleRequest`: dispatch on the HTTP method, and on presence of
the `id` path parameter for GET; any other method yields 405 with an error
envelope and no store call. -/
def handleRequest (db : DynamoDB) (req : APIGatewayProxyRequest) : HandlerResult :=
  if req.httpMethod = "GET" then
    if mapGet req.pathParameters ("id") = "" then findAllMovies db req
    else findOneMovie db req
  else if req.httpMethod = "POST" then insertMovie db req
  else if req.httpMethod = "PUT" then updateMovie db req
  else if req.httpMethod = "DELETE" then deleteMovie db req
  else
    ([], some ⟨405, jsonHeaders, jsonErrorResponse ("Unsupported HTTP method")⟩)

namespace DeleteLambda

/-- The standalone delete Lambda: its 400 and 500 responses carry no
Content-Type header and append `err.Error()` to a plain-text body. -/
def delete (db : DynamoDB) (req : APIGatewayProxyRequest) : HandlerResult :=
  match unmarshalMovie req.body with
  | Except.error e => ([], some ⟨400, [], "Invalid payload: " ++ e⟩)
  | Except.ok movie =>
    match db.deleteItemResult movie.id with
    | Except.error e =>
      ([StoreCall.deleteItem movie.id],
        some ⟨500, [], "Error deleting movie into DynamoDB: " ++ e⟩)
    | Except.ok _ =>
      ([StoreCall.deleteItem movie.id],
        some ⟨200, jsonHeaders, "Movie deleted successfully"⟩)

end DeleteLambda

namespace InsertLambda

/-- The standalone insert Lambda: its 400 and 500 responses carry no
Content-Type header and append `err.Error()` to a plain-text body. -/
def insert (db : DynamoDB) (req : APIGatewayProxyRequest) : HandlerResult :=
  match unmarshalMovie req.body with
  | Except.error e => ([], some ⟨400, [], "Invalid payload: " ++ e⟩)
  | Except.ok movie =>
    match db.putItemResult movie with
    | Except.error e =>
      ([StoreCall.putItem movie],
        some ⟨500, [], "Error inserting movie into DynamoDB: " ++ e⟩)
    | Except.ok _ =>
      ([StoreCall.putItem movie],
        some ⟨200, jsonHeaders, "Movie inserted successfully"⟩)

end InsertLambda

namespace UpdateLambda

/-- The standalone update Lambda (src/Update/main.go): its 400 and 500
responses carry no Content-Type header and append `err.Error()` to a
plain-text body. -/
def update (db : DynamoDB) (req : APIGatewayProxyRequest) : HandlerResult :=
  match unmarshalMovie req.body with
  | Except.error e => ([], some ⟨400, [], "Invalid payload: " ++ e⟩)
  | Except.ok movie =>
    match db.updateItemResult movie.id movie.name with
    | Except.error e =>
      ([StoreCall.updateItem movie.id movie.name],
        some ⟨500, [], "Error updating movie from DynamoDB: " ++ e⟩)
    | Except.ok _ =>
      ([StoreCall.updateItem movie.id movie.name],
        some ⟨200, jsonHeaders, "Movie updated successfully"⟩)

/-- The standalone get-one Lambda (src/Update/main.go): unlike the combined
router it never tests `len(res.Item) == 0`, so on an absent item the
dereference `*res.Item["ID"].S` is a nil-pointer panic, modelled as `none`. -/
def findOne (db : DynamoDB) (req : APIGatewayProxyRequest) : HandlerResult :=
  let id := mapGet req.pathParameters ("id")
  match db.getItemResult id with
  | Except.error _ =>
    ([StoreCall.getItem id], some ⟨500, [], "Error while getting item DynamoDB"⟩)
  | Except.ok none => ([StoreCall.getItem id], none)
  | Except.ok (some movie) =>
    ([StoreCall.getItem id], some ⟨200, jsonHeaders, movieJson movie⟩)

end UpdateLambda

/-- Concatenation of the page slices for page numbers 1 through `n`,
in order. -/
def pagesConcat (f : Nat → List Movie) : Nat → List Movie
  | 0 => []
  | Nat.succ n => pagesConcat f n ++ f (n + 1)

/-- The slice returned by `paginateMovies` for page number `k` at page
size 3 (empty when the call panics). -/
def pageItems (movies : List Movie) (k : Nat) : List Movie :=
  match paginateMovies movies (k : Int) 3 with
  | none => []
  | some r => r.1

/-- The collection is sorted ascending by id. -/
def sortedById : List Movie → Bool
  | [] => true
  | [_] => true
  | a :: b :: rest => if strLt b.id a.id then false else sortedById (b :: rest)

/-- A store oracle whose scan succeeds with the given items and whose other
calls all succeed (get finds nothing). -/
def okScanDb (items : List Movie) : DynamoDB :=
  ⟨Except.ok items, fun _ => Except.ok none, fun _ => Except.ok (),
    fun _ _ => Except.ok (), fun _ => Except.ok ()⟩

/-- A store oracle holding exactly one movie. -/
def oneItemDb (m : Movie) : DynamoDB :=
  ⟨Except.ok [m],
    fun i => if i = m.id then Except.ok (some m) else Except.ok none,
    fun _ => Except.ok (), fun _ _ => Except.ok (), fun _ => Except.ok ()⟩

/-- A store oracle whose delete call fails with the given collaborator
error text. -/
def deleteFailDb (msg : String) : DynamoDB :=
  ⟨Except.ok [], fun _ => Except.ok none, fun _ => Except.ok (),
    fun _ _ => Except.ok (), fun _ => Except.error msg⟩

def getReq (id : String) : APIGatewayProxyRequest := ⟨"GET", [("id", id)], [], ""⟩

def listPageReq (page : String) : APIGatewayProxyRequest :=
  ⟨"GET", [], [("page", page)], ""⟩

def postReq (body : String) : APIGatewayProxyRequest := ⟨"POST", [], [], body⟩

def deleteReq (body : String) : APIGatewayProxyRequest := ⟨"DELETE", [], [], body⟩

def patchReq : APIGatewayProxyRequest := ⟨"PATCH", [], [], ""⟩

def movies4 : List Movie := [⟨"a", "A"⟩, ⟨"b", "B"⟩, ⟨"c", "C"⟩, ⟨"d", "D"⟩]

def movies7 : List Movie :=
  [⟨"a", "A"⟩, ⟨"b", "B"⟩, ⟨"c", "C"⟩, ⟨"d", "D"⟩, ⟨"e", "E"⟩, ⟨"f", "F"⟩, ⟨"g", "G"⟩]

/-- The body is a marshalled `\x7bsuccess, message\x7d` envelope. -/
def isEnvelopeBody (s : String) : Prop := ∃ b m, s = feedbackJson b m

/-- The body is raw resource or page JSON (the read shapes). -/
def isReadBody (s : String) : Prop :=
  (∃ m, s = movieJson m) ∨ (∃ p, s = paginatedMovieJson p)

/-- A structured router response for a given request: Content-Type is
application/json, and the body is a `\x7bsuccess, message\x7d` envelope
(mutating operations and all error paths) or, on a read request, raw
resource or page JSON. -/
def structuredResponse (req : APIGatewayProxyRequest) (r : APIGatewayProxyResponse) : Prop :=
  r.headers = jsonHeaders ∧
    (isEnvelopeBody r.body ∨ (req.httpMethod = "GET" ∧ isReadBody r.body))

/-- The one input shape on which the combined router panics instead of
responding: a list request whose scan succeeds and whose parsed page number
is ≤ 0, which reaches `paginateMovies` with a negative slice bound. -/
def listCrash (db : DynamoDB) (req : APIGatewayProxyRequest) : Prop :=
  req.httpMethod = "GET" ∧ mapGet req.pathParameters ("id") = "" ∧
    (∃ items, db.scanResult = Except.ok items) ∧
    (∃ n, goAtoi (pageParamOf req) = some n ∧ n ≤ 0)

/-- A request with no query parameters at all (the `page` default case). -/
def listReqNoPage : APIGatewayProxyRequest := ⟨"GET", [], [], ""⟩

def putReq (body : String) : APIGatewayProxyRequest := ⟨"PUT", [], [], body⟩

/-- A store oracle whose scan fails with the given collaborator error text. -/
def scanFailDb (msg : String) : DynamoDB :=
  ⟨Except.error msg, fun _ => Except.ok none, fun _ => Except.ok (),
    fun _ _ => Except.ok (), fun _ => Except.ok ()⟩

/-- A store oracle whose get-item call fails. -/
def getFailDb (msg : String) : DynamoDB :=
  ⟨Except.ok [], fun _ => Except.error msg, fun _ => Except.ok (),
    fun _ _ => Except.ok (), fun _ => Except.ok ()⟩

/-- A store oracle whose put-item call fails. -/
def putFailDb (msg : String) : DynamoDB :=
  ⟨Except.ok [], fun _ => Except.ok none, fun _ => Except.error msg,
    fun _ _ => Except.ok (), fun _ => Except.ok ()⟩

/-- A store oracle whose update-item call fails. -/
def updateFailDb (msg : String) : DynamoDB :=
  ⟨Except.ok [], fun _ => Except.ok none, fun _ => Except.ok (),
    fun _ _ => Except.error msg, fun _ => Except.ok ()⟩

theorem goCeilDiv_three (n : Nat) : goCeilDiv n 3 = (((n + 2) / 3 : Nat) : Int) := by
  simp [goCeilDiv]

/-- The float ceiling computed by the source is exact integer ceiling
division. -/
theorem goCeilDiv_eq_ceil (n : Nat) : goCeilDiv n 3 = ⌈((n : ℚ)) / 3⌉ := by
  have h : 3 * ((n + 2) / 3) ≤ n + 2 ∧ n ≤ 3 * ((n + 2) / 3) := by omega
  rw [goCeilDiv_three, eq_comm, Int.ceil_eq_iff]
  generalize hq : (n + 2) / 3 = q at h ⊢
  have hc1 : (3 * (q : ℚ)) ≤ (n : ℚ) + 2 := by exact_mod_cast h.1
  have hc2 : ((n : ℚ)) ≤ 3 * (q : ℚ) := by exact_mod_cast h.2
  constructor
  · rw [lt_div_iff₀ (by norm_num : (0 : ℚ) < 3)]
    push_cast
    linarith
  · rw [div_le_iff₀ (by norm_num : (0 : ℚ) < 3)]
    push_cast
    linarith

/-- With a page number and page size both at least 1 the slice bounds are in
range, so `paginateMovies` returns rather than panicking. -/
theorem paginateMovies_isSome (movies : List Movie) (pageNum pageSize : Int)
    (h1 : 1 ≤ pageNum) (hp : 1 ≤ pageSize) :
    ∃ r, paginateMovies movies pageNum pageSize = some r := by
  have hs : 0 ≤ (pageNum - 1) * pageSize := mul_nonneg (by omega) (by omega)
  have hL0 : (0 : Int) ≤ (movies.length : Int) := Int.natCast_nonneg _
  unfold paginateMovies goSlice
  dsimp only
  generalize hA : (pageNum - 1) * pageSize = A at hs ⊢
  split_ifs <;> first | exact ⟨_, rfl⟩ | (exfalso; omega)

/-- When `paginateMovies` returns, the second component is always the total
page count. -/
theorem paginateMovies_snd (movies : List Movie) (pageNum pageSize : Int)
    (r : List Movie × Int) (h : paginateMovies movies pageNum pageSize = some r) :
    r.2 = goCeilDiv movies.length pageSize := by
  unfold paginateMovies at h
  dsimp only at h
  cases hg : goSlice movies
      (if (pageNum - 1) * pageSize > (movies.length : Int) then (movies.length : Int)
        else (pageNum - 1) * pageSize)
      (if (pageNum - 1) * pageSize + pageSize > (movies.length : Int) then (movies.length : Int)
        else (pageNum - 1) * pageSize + pageSize) with
  | none => rw [hg] at h; simp at h
  | some s => rw [hg] at h; simp at h; rw [← h]

/-- A page number of at most 0 reaches the Go slice expression with a
negative lower bound: `paginateMovies` panics. -/
theorem paginateMovies_nonpos (movies : List Movie) (pageNum : Int)
    (h : pageNum ≤ 0) : paginateMovies movies pageNum 3 = none := by
  have hL0 : (0 : Int) ≤ (movies.length : Int) := Int.natCast_nonneg _
  unfold paginateMovies goSlice
  dsimp only
  rw [if_neg (by omega : ¬((pageNum - 1) * 3 > (movies.length : Int)))]
  rw [if_neg]
  · rfl
  · omega

/-- For a page number between 1 and the total page count, `paginateMovies`
returns exactly the sub-sequence at offset `(k-1)*3` of length at most 3,
with the total page count. -/
theorem paginateMovies_page_eq (movies : List Movie) (k : Int)
    (h1 : 1 ≤ k) (h2 : k ≤ goCeilDiv movies.length 3) :
    paginateMovies movies k 3 =
      some ((movies.drop ((k - 1).toNat * 3)).take 3, goCeilDiv movies.length 3) := by
  rw [goCeilDiv_three] at h2
  set N := movies.length with hN
  unfold paginateMovies goSlice
  dsimp only
  rw [goCeilDiv_three]
  rw [if_neg (by omega : ¬((k - 1) * 3 > (N : Int)))]
  have e1 : ((k - 1) * 3).toNat = (k - 1).toNat * 3 := by omega
  by_cases hstop : (k - 1) * 3 + 3 > (N : Int)
  · rw [if_pos hstop, if_pos (⟨by omega, by omega, by omega⟩ :
      0 ≤ (k - 1) * 3 ∧ (k - 1) * 3 ≤ (N : Int) ∧ (N : Int) ≤ (N : Int))]
    have e2 : (movies.drop ((k - 1).toNat * 3)).take (((N : Int) - (k - 1) * 3).toNat)
        = movies.drop ((k - 1).toNat * 3) :=
      List.take_of_length_le (by rw [List.length_drop]; omega)
    have e3 : (movies.drop ((k - 1).toNat * 3)).take 3 = movies.drop ((k - 1).toNat * 3) :=
      List.take_of_length_le (by rw [List.length_drop]; omega)
    rw [e1, e2, e3]
    rfl
  · rw [if_neg hstop, if_pos (⟨by omega, by omega, by omega⟩ :
      0 ≤ (k - 1) * 3 ∧ (k - 1) * 3 ≤ (k - 1) * 3 + 3 ∧ (k - 1) * 3 + 3 ≤ (N : Int))]
    have e4 : ((k - 1) * 3 + 3 - (k - 1) * 3).toNat = 3 := by omega
    rw [e1, e4]
    rfl

theorem pagesConcat_congr (f g : Nat → List Movie) (n : Nat)
    (h : ∀ k, 1 ≤ k → k ≤ n → f k = g k) : pagesConcat f n = pagesConcat g n := by
  induction n with
  | zero => rfl
  | succ m ih =>
    rw [pagesConcat, pagesConcat, ih (fun k hk1 hk2 => h k hk1 (by omega)),
      h (m + 1) (by omega) (le_refl _)]

theorem pagesConcat_dropTake (l : List Movie) (n : Nat) :
    pagesConcat (fun k => (l.drop ((k - 1) * 3)).take 3) n = l.take (n * 3) := by
  induction n with
  | zero => simp [pagesConcat]
  | succ m ih =>
    rw [pagesConcat, ih]
    have e1 : m + 1 - 1 = m := by omega
    have e2 : (m + 1) * 3 = m * 3 + 3 := by ring
    rw [e1, e2, List.take_add]

theorem pageItems_eq (movies : List Movie) (k : Nat)
    (h1 : 1 ≤ k) (h2 : (k : Int) ≤ goCeilDiv movies.length 3) :
    pageItems movies k = (movies.drop ((k - 1) * 3)).take 3 := by
  have e : ((k : Int) - 1).toNat = k - 1 := by omega
  simp only [pageItems,
    paginateMovies_page_eq movies (k : Int) (by exact_mod_cast h1) h2, e]

/-- Concatenating the slices returned for pages 1 through the total page
count reproduces the collection. -/
theorem pagesConcat_pageItems (movies : List Movie) :
    pagesConcat (pageItems movies) ((movies.length + 2) / 3) = movies := by
  rw [pagesConcat_congr (pageItems movies)
      (fun k => (movies.drop ((k - 1) * 3)).take 3) ((movies.length + 2) / 3)
      (fun k hk1 hk2 =>
        pageItems_eq movies k hk1 (by rw [goCeilDiv_three]; exact_mod_cast hk2))]
  rw [pagesConcat_dropTake]
  exact List.take_of_length_le (by omega)
/-- C1: for every non-empty collection sorted ascending by id, with page
size 3, `paginateMovies` reports `total_pages = ⌈N/3⌉`; each page number `k`
in `1..total_pages` yields exactly the sub-sequence at offset `(k-1)*3`
through `k*3` clipped to the collection bounds; and concatenating the slices
returned for pages 1 through `total_pages` in order reproduces the full
collection exactly once. -/
theorem paginateMovies_pages_partition (movies : List Movie)
    (hne : movies ≠ []) (hsorted : sortedById movies = true) :
    (∀ k : Int, 1 ≤ k → k ≤ ⌈((movies.length : ℚ)) / 3⌉ →
        paginateMovies movies k 3 =
          some ((movies.drop ((k - 1).toNat * 3)).take 3, ⌈((movies.length : ℚ)) / 3⌉))
    ∧ pagesConcat (pageItems movies) (⌈((movies.length : ℚ)) / 3⌉).toNat = movies := by
  have hc := goCeilDiv_eq_ceil movies.length
  constructor
  · intro k hk1 hk2
    rw [← hc] at hk2 ⊢
    exact paginateMovies_page_eq movies k hk1 hk2
  · rw [← hc, goCeilDiv_three, Int.toNat_natCast]
    exact pagesConcat_pageItems movies

/-- Witness for C1 at a concrete sorted 4-movie collection. -/
theorem paginateMovies_pages_partition_witness :
    movies4 ≠ [] ∧ sortedById movies4 = true ∧
    paginateMovies movies4 2 3 =
      some ((movies4.drop (((2 : Int) - 1).toNat * 3)).take 3, ⌈((movies4.length : ℚ)) / 3⌉) ∧
    pagesConcat (pageItems movies4) (⌈((movies4.length : ℚ)) / 3⌉).toNat = movies4 :=
  ⟨by decide, by decide,
    (paginateMovies_pages_partition movies4 (by decide) (by decide)).1 2 (by decide)
      (by rw [show movies4.length = 4 from rfl, ← goCeilDiv_eq_ceil]; decide),
    (paginateMovies_pages_partition movies4 (by decide) (by decide)).2⟩

/-- C5: on any 7-item collection with page size 3, page 1 is the first 3
items with `total_pages = 3`, page 3 is the last 1 item, page 4 is the
empty slice; on the empty collection page 1 is empty with
`total_pages = 0`. -/
theorem paginateMovies_examples (m : List Movie) (h : m.length = 7) :
    paginateMovies m 1 3 = some (m.take 3, 3)
    ∧ paginateMovies m 3 3 = some (m.drop 6, 3)
    ∧ paginateMovies m 4 3 = some ([], 3)
    ∧ paginateMovies ([] : List Movie) 1 3 = some ([], 0) := by
  have hT : goCeilDiv m.length 3 = 3 := by rw [h]; decide
  refine ⟨?_, ?_, ?_, by decide⟩
  · have h1 := paginateMovies_page_eq m 1 (by decide) (by rw [hT]; decide)
    rw [hT] at h1
    simpa using h1
  · have h3 := paginateMovies_page_eq m 3 (by decide) (by rw [hT])
    rw [hT] at h3
    have e6 : (((3 : Int) - 1).toNat * 3) = 6 := by decide
    rw [e6] at h3
    have e : (m.drop 6).take 3 = m.drop 6 :=
      List.take_of_length_le (by rw [List.length_drop, h]; omega)
    rw [e] at h3
    exact h3
  · unfold paginateMovies goSlice
    dsimp only
    rw [h]
    norm_num [goCeilDiv]

/-- Witness for C5 at a concrete 7-movie collection. -/
theorem paginateMovies_examples_witness :
    movies7.length = 7
    ∧ paginateMovies movies7 1 3 = some (movies7.take 3, 3)
    ∧ paginateMovies movies7 3 3 = some (movies7.drop 6, 3)
    ∧ paginateMovies movies7 4 3 = some ([], 3)
    ∧ paginateMovies ([] : List Movie) 1 3 = some ([], 0) :=
  ⟨by decide, (paginateMovies_examples movies7 (by decide)).1,
    (paginateMovies_examples movies7 (by decide)).2.1,
    (paginateMovies_examples movies7 (by decide)).2.2.1,
    (paginateMovies_examples movies7 (by decide)).2.2.2⟩

/-- C10: for every page number ≥ 1 and page size ≥ 1 the slice bounds
inside `paginateMovies` are in range, so the slice is taken without a
panic; the precondition is necessary because the bounds are not clamped
below zero (`paginateMovies movies4 0 3` panics), and the router does pass
a violating page number, parsed from `page=0`, to `paginateMovies` before
the exceeds-total-pages check runs (no 400 is produced, the handler
panics). -/
theorem paginateMovies_bounds_safe :
    (∀ (movies : List Movie) (pageNum pageSize : Int), 1 ≤ pageNum → 1 ≤ pageSize →
        ∃ r, paginateMovies movies pageNum pageSize = some r)
    ∧ paginateMovies movies4 0 3 = none
    ∧ findAllMovies (okScanDb movies4) (listPageReq ("0")) = ([StoreCall.scan], none) :=
  ⟨paginateMovies_isSome, by decide, by rfl⟩

/-- Witness for C10 at a concrete in-range page. -/
theorem paginateMovies_bounds_safe_witness :
    ∃ r, paginateMovies movies7 2 3 = some r :=
  paginateMovies_bounds_safe.1 movies7 2 3 (by decide) (by decide)

/-- C2: the router dispatches GET without an `id` path parameter to the
list operation, GET with an `id` to the get-one operation, POST to create,
PUT to update, DELETE to delete, and any other method to a 405 response
with an error envelope and no storage call. -/
theorem handleRequest_dispatch (db : DynamoDB) (req : APIGatewayProxyRequest) :
    (req.httpMethod = "GET" → mapGet req.pathParameters ("id") = "" →
        handleRequest db req = findAllMovies db req)
    ∧ (req.httpMethod = "GET" → mapGet req.pathParameters ("id") ≠ "" →
        handleRequest db req = findOneMovie db req)
    ∧ (req.httpMethod = "POST" → handleRequest db req = insertMovie db req)
    ∧ (req.httpMethod = "PUT" → handleRequest db req = updateMovie db req)
    ∧ (req.httpMethod = "DELETE" → handleRequest db req = deleteMovie db req)
    ∧ (req.httpMethod ≠ "GET" → req.httpMethod ≠ "POST" → req.httpMethod ≠ "PUT" →
        req.httpMethod ≠ "DELETE" →
        handleRequest db req =
          ([], some ⟨405, jsonHeaders, jsonErrorResponse ("Unsupported HTTP method")⟩)) := by
  unfold handleRequest
  refine ⟨?_, ?_, ?_, ?_, ?_, ?_⟩
  · intro h1 h2
    rw [if_pos h1, if_pos h2]
  · intro h1 h2
    rw [if_pos h1, if_neg h2]
  · intro h1
    rw [if_neg (by rw [h1]; decide), if_pos h1]
  · intro h1
    rw [if_neg (by rw [h1]; decide), if_neg (by rw [h1]; decide), if_pos h1]
  · intro h1
    rw [if_neg (by rw [h1]; decide), if_neg (by rw [h1]; decide),
      if_neg (by rw [h1]; decide), if_pos h1]
  · intro h1 h2 h3 h4
    rw [if_neg h1, if_neg h2, if_neg h3, if_neg h4]

/-- Witness for C2: an unsupported method yields 405 and no store call. -/
theorem handleRequest_dispatch_witness :
    handleRequest (okScanDb []) patchReq =
      ([], some ⟨405, jsonHeaders, jsonErrorResponse ("Unsupported HTTP method")⟩) :=
  (handleRequest_dispatch (okScanDb []) patchReq).2.2.2.2.2
    (by decide) (by decide) (by decide) (by decide)

/-- C3 (code bug): for a get-one request whose id is absent from the
store, the standalone `findOne` Lambda of src/Update/main.go dereferences
the missing item and panics (`none`) instead of returning the specified
404; the combined router's `findOneMovie` does return 404 with the
not-found envelope on the same input, and 200 with the serialized movie
when the item exists. -/
theorem findOne_missing_item_behavior :
    UpdateLambda.findOne (okScanDb []) (getReq ("missing")) =
      ([StoreCall.getItem ("missing")], none)
    ∧ findOneMovie (okScanDb []) (getReq ("missing")) =
      ([StoreCall.getItem ("missing")],
        some ⟨404, jsonHeaders, jsonErrorResponse ("Movie not found with the ID provided")⟩)
    ∧ findOneMovie (oneItemDb ⟨"m1", "Alpha"⟩) (getReq ("m1")) =
      ([StoreCall.getItem ("m1")], some ⟨200, jsonHeaders, movieJson ⟨"m1", "Alpha"⟩⟩) :=
  ⟨by rfl, by rfl, by rfl⟩

/-- C4 (amended): when the parsed page number exceeds the computed total
page count (including any page ≥ 1 against the empty collection, whose
total is 0), the list operation returns 400 with the exceeds-total-pages
error envelope; when the parsed page number is between 1 and the total,
it returns 200 with the page serialized as
`\x7bdata, actual_page, total_pages\x7d`; a parsed page number ≤ 0 instead
panics inside `paginateMovies` and produces no response. -/
theorem findAllMovies_page_range (db : DynamoDB) (req : APIGatewayProxyRequest)
    (items : List Movie) (n : Int)
    (hscan : db.scanResult = Except.ok items)
    (hparse : goAtoi (pageParamOf req) = some n) :
    (n > goCeilDiv (sortMoviesById items).length 3 →
        findAllMovies db req =
          ([StoreCall.scan], some ⟨400, jsonHeaders,
            jsonErrorResponse ("The requested page exceeds the total of pages")⟩))
    ∧ (1 ≤ n → n ≤ goCeilDiv (sortMoviesById items).length 3 →
        findAllMovies db req =
          ([StoreCall.scan], some ⟨200, jsonHeaders,
            paginatedMovieJson ⟨((sortMoviesById items).drop ((n - 1).toNat * 3)).take 3,
              n, goCeilDiv (sortMoviesById items).length 3⟩⟩))
    ∧ (n ≤ 0 → findAllMovies db req = ([StoreCall.scan], none)) := by
  unfold findAllMovies
  rw [hscan]
  dsimp only
  rw [hparse]
  dsimp only
  refine ⟨?_, ?_, ?_⟩
  · intro hgt
    have h0 : (0 : Int) ≤ goCeilDiv (sortMoviesById items).length 3 := by
      rw [goCeilDiv_three]
      exact Int.natCast_nonneg _
    obtain ⟨r, hr⟩ := paginateMovies_isSome (sortMoviesById items) n 3 (by omega) (by norm_num)
    obtain ⟨sl, T⟩ := r
    have hT := paginateMovies_snd _ _ _ _ hr
    rw [hr]
    dsimp only
    rw [if_pos (by dsimp only at hT; rw [hT]; exact hgt)]
  · intro h1 h2
    rw [paginateMovies_page_eq _ n h1 h2]
    dsimp only
    rw [if_neg (by omega : ¬ n > goCeilDiv (sortMoviesById items).length 3)]
  · intro h0
    rw [paginateMovies_nonpos _ n h0]

/-- Counterexample to C4 as stated: for the list request `page=0` the
parsed page number 0 does not exceed the total page count 0, yet the
handler returns no 200 response — it panics (`none`). -/
theorem findAllMovies_page0_counterexample :
    goAtoi (pageParamOf (listPageReq ("0"))) = some 0
    ∧ (okScanDb []).scanResult = Except.ok []
    ∧ ¬((0 : Int) > goCeilDiv (sortMoviesById []).length 3)
    ∧ findAllMovies (okScanDb []) (listPageReq ("0")) = ([StoreCall.scan], none) :=
  ⟨by rfl, by rfl, by decide, by rfl⟩

/-- Witness for C4 (amended): page 10 against a 2-page collection yields
400 with the exceeds-total-pages message. -/
theorem findAllMovies_page_range_witness :
    (okScanDb movies4).scanResult = Except.ok movies4
    ∧ goAtoi (pageParamOf (listPageReq ("10"))) = some 10
    ∧ (10 : Int) > goCeilDiv (sortMoviesById movies4).length 3
    ∧ findAllMovies (okScanDb movies4) (listPageReq ("10")) =
        ([StoreCall.scan], some ⟨400, jsonHeaders,
          jsonErrorResponse ("The requested page exceeds the total of pages")⟩) :=
  ⟨rfl, rfl, by decide,
    (findAllMovies_page_range (okScanDb movies4) (listPageReq ("10")) movies4 10
      rfl rfl).1 (by decide)⟩

/-- C6: a create request whose body does not parse as a movie yields 400
with the invalid-payload envelope and performs zero storage calls; the
standalone insert Lambda likewise performs zero storage calls on its 400
path. -/
theorem insertMovie_invalid_payload (db : DynamoDB) (req : APIGatewayProxyRequest)
    (e : String) (h : unmarshalMovie req.body = Except.error e) :
    insertMovie db req = ([], some ⟨400, jsonHeaders, jsonErrorResponse ("Invalid payload")⟩)
    ∧ InsertLambda.insert db req = ([], some ⟨400, [], "Invalid payload: " ++ e⟩) := by
  unfold insertMovie InsertLambda.insert
  rw [h]
  exact ⟨rfl, rfl⟩

/-- Witness for C6 with the body `not-json`: call list is empty. -/
theorem insertMovie_invalid_payload_witness :
    unmarshalMovie ((postReq ("not-json")).body) = Except.error ("invalid literal")
    ∧ insertMovie (okScanDb []) (postReq ("not-json")) =
        ([], some ⟨400, jsonHeaders, jsonErrorResponse ("Invalid payload")⟩)
    ∧ InsertLambda.insert (okScanDb []) (postReq ("not-json")) =
        ([], some ⟨400, [], "Invalid payload: " ++ ("invalid literal")⟩) :=
  ⟨rfl,
    (insertMovie_invalid_payload (okScanDb []) (postReq ("not-json"))
      ("invalid literal") rfl).1,
    (insertMovie_invalid_payload (okScanDb []) (postReq ("not-json"))
      ("invalid literal") rfl).2⟩

/-- C7: the page number is read from the `page` query parameter,
defaulting to `"1"` when absent; a value that does not parse as an integer
makes the list operation return 500 with the only-numbers-accepted error
envelope, before any pagination. -/
theorem findAllMovies_page_param (db : DynamoDB) (req : APIGatewayProxyRequest)
    (items : List Movie) (hscan : db.scanResult = Except.ok items) :
    (mapGet req.queryStringParameters ("page") = "" → pageParamOf req = "1")
    ∧ (goAtoi (pageParamOf req) = none →
        findAllMovies db req =
          ([StoreCall.scan], some ⟨500, jsonHeaders,
            jsonErrorResponse ("Only numbers accepted in page query string")⟩)) := by
  constructor
  · intro h
    unfold pageParamOf
    rw [h]
    rfl
  · intro hp
    unfold findAllMovies
    rw [hscan]
    dsimp only
    rw [hp]

/-- Witness for C7: a missing parameter defaults to page 1; `page=abc`
yields the 500 parse-error envelope. -/
theorem findAllMovies_page_param_witness :
    mapGet (listReqNoPage.queryStringParameters) ("page") = ""
    ∧ pageParamOf listReqNoPage = "1"
    ∧ goAtoi (pageParamOf (listPageReq ("abc"))) = none
    ∧ findAllMovies (okScanDb []) (listPageReq ("abc")) =
        ([StoreCall.scan], some ⟨500, jsonHeaders,
          jsonErrorResponse ("Only numbers accepted in page query string")⟩) :=
  ⟨rfl, (findAllMovies_page_param (okScanDb []) listReqNoPage [] rfl).1 rfl, rfl,
    (findAllMovies_page_param (okScanDb []) (listPageReq ("abc")) [] rfl).2 rfl⟩

/-- C8 (amended): on every storage-collaborator failure the combined
router returns 500 with a fixed generic envelope message that does not
depend on the collaborator error text `e`; the standalone insert, update
and delete Lambdas instead return 500 with the collaborator error text
appended to the message. -/
theorem storageFailure_messages (db : DynamoDB) (req : APIGatewayProxyRequest)
    (e : String) (m : Movie) :
    (db.scanResult = Except.error e →
        findAllMovies db req = ([StoreCall.scan], some ⟨500, jsonHeaders,
          jsonErrorResponse ("Error while scanning DynamoDB")⟩))
    ∧ (db.getItemResult (mapGet req.pathParameters ("id")) = Except.error e →
        findOneMovie db req = ([StoreCall.getItem (mapGet req.pathParameters ("id"))],
          some ⟨500, jsonHeaders, jsonErrorResponse ("Error while getting item DynamoDB")⟩))
    ∧ (unmarshalMovie req.body = Except.ok m → db.putItemResult m = Except.error e →
        insertMovie db req = ([StoreCall.putItem m],
          some ⟨500, jsonHeaders, jsonErrorResponse ("Error inserting movie into DynamoDB")⟩))
    ∧ (unmarshalMovie req.body = Except.ok m → db.updateItemResult m.id m.name = Except.error e →
        updateMovie db req = ([StoreCall.updateItem m.id m.name],
          some ⟨500, jsonHeaders, jsonErrorResponse ("Error updating movie from DynamoDB")⟩))
    ∧ (unmarshalMovie req.body = Except.ok m → db.deleteItemResult m.id = Except.error e →
        deleteMovie db req = ([StoreCall.deleteItem m.id],
          some ⟨500, jsonHeaders, jsonErrorResponse ("Error deleting movie into DynamoDB")⟩))
    ∧ (unmarshalMovie req.body = Except.ok m → db.putItemResult m = Except.error e →
        InsertLambda.insert db req = ([StoreCall.putItem m],
          some ⟨500, [], "Error inserting movie into DynamoDB: " ++ e⟩))
    ∧ (unmarshalMovie req.body = Except.ok m → db.updateItemResult m.id m.name = Except.error e →
        UpdateLambda.update db req = ([StoreCall.updateItem m.id m.name],
          some ⟨500, [], "Error updating movie from DynamoDB: " ++ e⟩))
    ∧ (unmarshalMovie req.body = Except.ok m → db.deleteItemResult m.id = Except.error e →
        DeleteLambda.delete db req = ([StoreCall.deleteItem m.id],
          some ⟨500, [], "Error deleting movie into DynamoDB: " ++ e⟩)) := by
  refine ⟨?_, ?_, ?_, ?_, ?_, ?_, ?_, ?_⟩
  · intro h1
    unfold findAllMovies
    rw [h1]
  · intro h1
    unfold findOneMovie
    dsimp only
    rw [h1]
  · intro h1 h2
    unfold insertMovie
    rw [h1]
    dsimp only
    rw [h2]
  · intro h1 h2
    unfold updateMovie
    rw [h1]
    dsimp only
    rw [h2]
  · intro h1 h2
    unfold deleteMovie
    rw [h1]
    dsimp only
    rw [h2]
  · intro h1 h2
    unfold InsertLambda.insert
    rw [h1]
    dsimp only
    rw [h2]
  · intro h1 h2
    unfold UpdateLambda.update
    rw [h1]
    dsimp only
    rw [h2]
  · intro h1 h2
    unfold DeleteLambda.delete
    rw [h1]
    dsimp only
    rw [h2]

/-- Counterexample to C8 as stated: the standalone delete Lambda returns
a 500 body that contains the collaborator-internal error text verbatim. -/
theorem delete_error_echo_counterexample :
    DeleteLambda.delete (deleteFailDb ("connection reset by peer"))
        (deleteReq ("\x7b\"id\":\"m1\"\x7d")) =
      ([StoreCall.deleteItem ("m1")],
        some ⟨500, [],
          "Error deleting movie into DynamoDB: " ++ ("connection reset by peer")⟩) := by
  rfl

/-- Witness for C8 (amended) at concrete failing stores for every
conjunct. -/
theorem storageFailure_messages_witness :
    findAllMovies (scanFailDb ("disk failure")) (listPageReq ("1")) =
      ([StoreCall.scan], some ⟨500, jsonHeaders,
        jsonErrorResponse ("Error while scanning DynamoDB")⟩)
    ∧ findOneMovie (getFailDb ("disk failure")) (getReq ("m1")) =
      ([StoreCall.getItem ("m1")], some ⟨500, jsonHeaders,
        jsonErrorResponse ("Error while getting item DynamoDB")⟩)
    ∧ insertMovie (putFailDb ("disk failure")) (postReq ("\x7b\"id\":\"m1\"\x7d")) =
      ([StoreCall.putItem ⟨"m1", ""⟩], some ⟨500, jsonHeaders,
        jsonErrorResponse ("Error inserting movie into DynamoDB")⟩)
    ∧ updateMovie (updateFailDb ("disk failure")) (putReq ("\x7b\"id\":\"m1\"\x7d")) =
      ([StoreCall.updateItem ("m1") ("")], some ⟨500, jsonHeaders,
        jsonErrorResponse ("Error updating movie from DynamoDB")⟩)
    ∧ deleteMovie (deleteFailDb ("disk failure")) (deleteReq ("\x7b\"id\":\"m1\"\x7d")) =
      ([StoreCall.deleteItem ("m1")], some ⟨500, jsonHeaders,
        jsonErrorResponse ("Error deleting movie into DynamoDB")⟩)
    ∧ InsertLambda.insert (putFailDb ("disk failure")) (postReq ("\x7b\"id\":\"m1\"\x7d")) =
      ([StoreCall.putItem ⟨"m1", ""⟩], some ⟨500, [],
        "Error inserting movie into DynamoDB: " ++ ("disk failure")⟩)
    ∧ UpdateLambda.update (updateFailDb ("disk failure")) (putReq ("\x7b\"id\":\"m1\"\x7d")) =
      ([StoreCall.updateItem ("m1") ("")], some ⟨500, [],
        "Error updating movie from DynamoDB: " ++ ("disk failure")⟩)
    ∧ DeleteLambda.delete (deleteFailDb ("disk failure")) (deleteReq ("\x7b\"id\":\"m1\"\x7d")) =
      ([StoreCall.deleteItem ("m1")], some ⟨500, [],
        "Error deleting movie into DynamoDB: " ++ ("disk failure")⟩) :=
  ⟨(storageFailure_messages (scanFailDb ("disk failure")) (listPageReq ("1"))
      ("disk failure") ⟨"m1", ""⟩).1 rfl,
    (storageFailure_messages (getFailDb ("disk failure")) (getReq ("m1"))
      ("disk failure") ⟨"m1", ""⟩).2.1 rfl,
    (storageFailure_messages (putFailDb ("disk failure")) (postReq ("\x7b\"id\":\"m1\"\x7d"))
      ("disk failure") ⟨"m1", ""⟩).2.2.1 rfl rfl,
    (storageFailure_messages (updateFailDb ("disk failure")) (putReq ("\x7b\"id\":\"m1\"\x7d"))
      ("disk failure") ⟨"m1", ""⟩).2.2.2.1 rfl rfl,
    (storageFailure_messages (deleteFailDb ("disk failure")) (deleteReq ("\x7b\"id\":\"m1\"\x7d"))
      ("disk failure") ⟨"m1", ""⟩).2.2.2.2.1 rfl rfl,
    (storageFailure_messages (putFailDb ("disk failure")) (postReq ("\x7b\"id\":\"m1\"\x7d"))
      ("disk failure") ⟨"m1", ""⟩).2.2.2.2.2.1 rfl rfl,
    (storageFailure_messages (updateFailDb ("disk failure")) (putReq ("\x7b\"id\":\"m1\"\x7d"))
      ("disk failure") ⟨"m1", ""⟩).2.2.2.2.2.2.1 rfl rfl,
    (storageFailure_messages (deleteFailDb ("disk failure")) (deleteReq ("\x7b\"id\":\"m1\"\x7d"))
      ("disk failure") ⟨"m1", ""⟩).2.2.2.2.2.2.2 rfl rfl⟩

/-- C9 (amended): for every request except a list request whose page
parameter parses to an integer ≤ 0 (which panics with no response), the
router returns a response with a status code, a Content-Type
application/json header, and a body that is a `\x7bsuccess, message\x7d`
envelope (mutations and all error paths) or raw resource/page JSON (read
successes). -/
theorem handleRequest_structured (db : DynamoDB) (req : APIGatewayProxyRequest)
    (h : ¬ listCrash db req) :
    ∃ r, (handleRequest db req).2 = some r ∧ structuredResponse req r := by
  unfold handleRequest
  by_cases hm : req.httpMethod = "GET"
  · rw [if_pos hm]
    by_cases hid : mapGet req.pathParameters ("id") = ""
    · rw [if_pos hid]
      unfold findAllMovies
      cases hscan : db.scanResult with
      | error e => exact ⟨_, rfl, rfl, Or.inl ⟨false, _, rfl⟩⟩
      | ok items =>
        dsimp only
        cases hp : goAtoi (pageParamOf req) with
        | none => exact ⟨_, rfl, rfl, Or.inl ⟨false, _, rfl⟩⟩
        | some n =>
          dsimp only
          have hn : 1 ≤ n := by
            by_contra hn0
            push_neg at hn0
            exact h ⟨hm, hid, ⟨items, hscan⟩, ⟨n, hp, by omega⟩⟩
          obtain ⟨r, hr⟩ := paginateMovies_isSome (sortMoviesById items) n 3 hn (by norm_num)
          obtain ⟨sl, T⟩ := r
          rw [hr]
          dsimp only
          by_cases hgt : n > T
          · rw [if_pos hgt]
            exact ⟨_, rfl, rfl, Or.inl ⟨false, _, rfl⟩⟩
          · rw [if_neg hgt]
            exact ⟨_, rfl, rfl, Or.inr ⟨hm, Or.inr ⟨_, rfl⟩⟩⟩
    · rw [if_neg hid]
      unfold findOneMovie
      dsimp only
      cases hg : db.getItemResult (mapGet req.pathParameters ("id")) with
      | error e => exact ⟨_, rfl, rfl, Or.inl ⟨false, _, rfl⟩⟩
      | ok o =>
        cases o with
        | none => exact ⟨_, rfl, rfl, Or.inl ⟨false, _, rfl⟩⟩
        | some mv => exact ⟨_, rfl, rfl, Or.inr ⟨hm, Or.inl ⟨mv, rfl⟩⟩⟩
  · rw [if_neg hm]
    by_cases hpost : req.httpMethod = "POST"
    · rw [if_pos hpost]
      unfold insertMovie
      cases hu : unmarshalMovie req.body with
      | error e => exact ⟨_, rfl, rfl, Or.inl ⟨false, _, rfl⟩⟩
      | ok mv =>
        dsimp only
        cases hput : db.putItemResult mv with
        | error e => exact ⟨_, rfl, rfl, Or.inl ⟨false, _, rfl⟩⟩
        | ok u => exact ⟨_, rfl, rfl, Or.inl ⟨true, _, rfl⟩⟩
    · rw [if_neg hpost]
      by_cases hput : req.httpMethod = "PUT"
      · rw [if_pos hput]
        unfold updateMovie
        cases hu : unmarshalMovie req.body with
        | error e => exact ⟨_, rfl, rfl, Or.inl ⟨false, _, rfl⟩⟩
        | ok mv =>
          dsimp only
          cases hupd : db.updateItemResult mv.id mv.name with
          | error e => exact ⟨_, rfl, rfl, Or.inl ⟨false, _, rfl⟩⟩
          | ok u => exact ⟨_, rfl, rfl, Or.inl ⟨true, _, rfl⟩⟩
      · rw [if_neg hput]
        by_cases hdel : req.httpMethod = "DELETE"
        · rw [if_pos hdel]
          unfold deleteMovie
          cases hu : unmarshalMovie req.body with
          | error e => exact ⟨_, rfl, rfl, Or.inl ⟨false, _, rfl⟩⟩
          | ok mv =>
            dsimp only
            cases hd : db.deleteItemResult mv.id with
            | error e => exact ⟨_, rfl, rfl, Or.inl ⟨false, _, rfl⟩⟩
            | ok u => exact ⟨_, rfl, rfl, Or.inl ⟨true, _, rfl⟩⟩
        · rw [if_neg hdel]
          exact ⟨_, rfl, rfl, Or.inl ⟨false, _, rfl⟩⟩

/-- Counterexample to C9 as stated: the list request `page=0` produces
no response envelope at all — the router panics. -/
theorem handleRequest_crash_counterexample :
    handleRequest (okScanDb []) (listPageReq ("0")) = ([StoreCall.scan], none) := by
  rfl

/-- Witness for C9 (amended) at an unsupported-method request. -/
theorem handleRequest_structured_witness :
    ∃ r, (handleRequest (okScanDb []) patchReq).2 = some r
      ∧ structuredResponse patchReq r :=
  handleRequest_structured (okScanDb []) patchReq
    (by simp [listCrash, patchReq])
